import Mathlib

/-!
Shallow embedding of the transport/host-selection core of the Havoc Demon
payload (src/payloads/Demon/src/core/TransportHttp.c, TransportSmb.c,
Transport.c).

The host pool is a NULL-terminated singly linked list built by HostAdd
(each new record is prepended, its Next pointing at the previous head), so
it is embedded as a Lean list ordered from the list head; a pointer into
the pool is embedded as an index into that list (None for NULL).  The
process-wide random source RandomNumber32() is passed in as an explicit
argument.  C operations whose execution can fault (division by zero on an
unsigned modulo, dereference of a NULL pointer) are embedded in
Except Unit, with .error () standing for the fault.
-/

set_option autoImplicit false

deriving instance DecidableEq for Except

namespace Havoc

/-- Rotation strategy tag. Modelled from the spec: the numeric values live in
TransportHttp.h which is not part of the sources; only their distinctness is
used by the code. -/
def TRANSPORT_HTTP_ROTATION_ROUND_ROBIN : Nat := 0

/-- Rotation strategy tag, see TRANSPORT_HTTP_ROTATION_ROUND_ROBIN. -/
def TRANSPORT_HTTP_ROTATION_RANDOM : Nat := 1

/-- Win32 error code ERROR_NO_DATA ("the pipe is being closed"). -/
def ERROR_NO_DATA : Nat := 232

/-- HTTP status code 200. -/
def HTTP_STATUS_OK : Nat := 200

/-- One record of the host pool (HOST_DATA in TransportHttp.c): endpoint
identity, failure counter and liveness flag.  The Next link is represented
by list adjacency. -/
structure HOST_DATA where
  host : Nat
  port : Nat
  failures : Nat
  dead : Bool
  deriving DecidableEq, Repr

/-- The slice of the global Instance that the transport core reads and
writes: the host pool (Instance->Config.Transport.Hosts, head first), the
current host pointer (Instance->Config.Transport.Host, an index into the
pool list), retry/rotation configuration, and the session-level flags used
by HttpSend. -/
structure TransportState where
  hosts : List HOST_DATA
  current : Option Nat
  hostMaxRetries : Nat
  hostRotation : Nat
  numHosts : Nat
  lookedForProxy : Bool
  connected : Bool
  hHttpSession : Bool
  proxyEnabled : Bool
  proxyForUrl : Bool
  deriving DecidableEq, Repr

/-- HostCount: walk the Next links from the head counting records.  On the
NULL-terminated list that HostAdd builds the walk visits each record once. -/
def walkCount : List HOST_DATA → Nat
  | [] => 0
  | _ :: rest => 1 + walkCount rest

/-- HostCount() of a transport state. -/
def HostCount (s : TransportState) : Nat :=
  walkCount s.hosts

/-- The walk inside HostRandom: starting at the head with a running counter,
stop at the requested index, bail out with NULL when the current pointer is
NULL or its Next link is NULL before the index is reached. -/
def walkToIndex (hosts : List HOST_DATA) (index count : Nat) : Option Nat :=
  match hosts with
  | [] => none
  | _ :: rest =>
    if count = index then some count
    else
      match rest with
      | [] => none
      | _ :: _ => walkToIndex rest index (count + 1)

/-- HostRandom(): Index = RandomNumber32() % HostCount() followed by the
walk.  When the pool is empty, HostCount() is 0 and the unsigned modulo
faults (division by zero), embedded as .error (). -/
def HostRandom (rand : Nat) (s : TransportState) : Except Unit (Option Nat) :=
  if walkCount s.hosts = 0 then .error ()
  else .ok (walkToIndex s.hosts (rand % walkCount s.hosts) 0)

/-- Entry of HostRotation: on a multi-host configuration
(Instance->Config.Transport.NumHosts > 1) clear Instance->LookedForProxy. -/
def rotationEntry (s : TransportState) : TransportState :=
  if s.numHosts > 1 then { s with lookedForProxy := false } else s

/-- Reset applied to each record by the unlimited-retries branch of
HostRotation: Failures = 0, Dead = FALSE. -/
def resetHost (h : HOST_DATA) : HOST_DATA :=
  { h with failures := 0, dead := false }

/-- The head pointer Instance->Config.Transport.Hosts as an index. -/
def headIdx (hosts : List HOST_DATA) : Option Nat :=
  if hosts.isEmpty then none else some 0

/-- The scan of the round-robin branch of HostRotation: Host starts at the
list head and advances past records whose Dead flag is set; the loop ends
at the first live record or with a NULL Host. -/
def firstLive : List HOST_DATA → Nat → Option Nat
  | [], _ => none
  | h :: rest, i => if h.dead then firstLive rest (i + 1) else some i

/-- Tail of HostRotation: when HostMaxRetries is 0 and no host was selected,
reset every record of the pool and select the head again. -/
def exhaustionReset (host : Option Nat) (s : TransportState) :
    Option Nat × TransportState :=
  if s.hostMaxRetries = 0 ∧ host = none then
    let hosts := s.hosts.map resetHost
    (headIdx hosts, { s with hosts := hosts })
  else (host, s)

/-- The round-robin branch of HostRotation (after the proxy-flag entry):
when the current host pointer is NULL the function returns the list head
at once (skipping the exhaustion reset); otherwise it scans from the head
for a live record and then runs the exhaustion reset. -/
def rotationRRBranch (s : TransportState) : Option Nat × TransportState :=
  match s.current with
  | none => (headIdx s.hosts, s)
  | some _ => exhaustionReset (firstLive s.hosts 0) s

/-- HostRotation(Strategy).  The random branch calls HostRandom() and
dereferences the result (Host->Dead) without a NULL check — a NULL result
is embedded as a fault; on a dead pick it falls back to the whole function
at the round-robin tag, which is inlined here (rotationEntry followed by
rotationRRBranch), and the caller's own exhaustion check runs afterwards. -/
def HostRotation (rand strategy : Nat) (s : TransportState) :
    Except Unit (Option Nat × TransportState) :=
  if strategy = TRANSPORT_HTTP_ROTATION_ROUND_ROBIN then
    .ok (rotationRRBranch (rotationEntry s))
  else if strategy = TRANSPORT_HTTP_ROTATION_RANDOM then
    match HostRandom rand (rotationEntry s) with
    | .error e => .error e
    | .ok none => .error ()
    | .ok (some i) =>
      match (rotationEntry s).hosts[i]? with
      | none => .error ()
      | some h =>
        if h.dead then
          .ok (exhaustionReset
            (rotationRRBranch (rotationEntry (rotationEntry s))).1
            (rotationRRBranch (rotationEntry (rotationEntry s))).2)
        else
          .ok (exhaustionReset (some i) (rotationEntry s))
  else
    .ok (exhaustionReset none (rotationEntry s))

/-- HostFailure(Host): NULL host is returned unchanged; a host whose
Failures counter has reached HostMaxRetries is marked Dead and the
configured rotation picks a successor; otherwise the counter is
incremented and the same host is returned. -/
def HostFailure (rand : Nat) (hostPtr : Option Nat) (s : TransportState) :
    Except Unit (Option Nat × TransportState) :=
  match hostPtr with
  | none => .ok (none, s)
  | some i =>
    match s.hosts[i]? with
    | none => .error ()
    | some h =>
      if h.failures = s.hostMaxRetries then
        HostRotation rand s.hostRotation
          { s with hosts := s.hosts.set i { h with dead := true } }
      else
        .ok (some i, { s with hosts := s.hosts.set i { h with failures := h.failures + 1 } })

/-- HostCheckup(): count the records whose Dead flag is set; the pool is
alive unless that count equals HostCount(). -/
def HostCheckup (s : TransportState) : Bool :=
  let deadCount := walkCount (s.hosts.filter (fun h => h.dead))
  if HostCount s = deadCount then false else true

/-! The SMB (duplex named-pipe) transport, TransportSmb.c. -/

/-- A BUFFER out-parameter: Length together with the Buffer pointer,
where some bytes stands for an allocated buffer holding those bytes. -/
structure BUFFER where
  length : Nat
  data : Option (List Nat)
  deriving DecidableEq, Repr

/-- A BUFFER holding nothing (Buffer = NULL, Length = 0). -/
def emptyBUFFER : BUFFER := { length := 0, data := none }

/-- The SMB-side session state: Instance->Session.AgentID,
Instance->Session.Connected and the pipe handle
Instance->Config.Transport.Handle (true when the field is non-NULL). -/
structure SmbState where
  agentId : Nat
  connected : Bool
  handle : Bool
  deriving DecidableEq, Repr

/-- Outcomes of the Win32 calls SmbRecv makes, in program order: the
PeekNamedPipe result and its reported available byte count, the two
four-byte ReadFile results (whether the call returned TRUE, whether a
FALSE return left ERROR_MORE_DATA as the last error, and the value that
was stored), the PipeRead result and the bytes the pipe delivers. -/
structure SmbRecvEnv where
  peekOk : Bool
  bytesAvail : Nat
  readIdOk : Bool
  readIdMoreData : Bool
  demonId : Nat
  readLenOk : Bool
  readLenMoreData : Bool
  packageSize : Nat
  pipeReadOk : Bool
  pipeBytes : List Nat
  deriving DecidableEq, Repr

/-- SmbRecv(Resp): peek the pipe; with more than 8 bytes available read the
4-byte DemonId (a FALSE ReadFile with last error ERROR_MORE_DATA is not a
failure), verify it against Session.AgentID, read the 4-byte PackageSize,
allocate PackageSize bytes and PipeRead exactly that many; every failure
inside that branch zeroes Resp, clears Connected and returns FALSE.  With
8 or fewer bytes available nothing is read and the call returns TRUE.  A
failing peek clears Connected and returns FALSE. -/
def SmbRecv (env : SmbRecvEnv) (s : SmbState) (resp0 : BUFFER) :
    Bool × BUFFER × SmbState :=
  if env.peekOk then
    if env.bytesAvail > 4 + 4 then
      if ¬ env.readIdOk ∧ ¬ env.readIdMoreData then
        (false, emptyBUFFER, { s with connected := false })
      else if s.agentId ≠ env.demonId then
        (false, emptyBUFFER, { s with connected := false })
      else if ¬ env.readLenOk ∧ ¬ env.readLenMoreData then
        (false, emptyBUFFER, { s with connected := false })
      else
        let resp : BUFFER :=
          { length := env.packageSize
            data := some (env.pipeBytes.take env.packageSize) }
        if ¬ env.pipeReadOk then
          (false, emptyBUFFER, { s with connected := false })
        else
          (true, resp, s)
    else
      (true, resp0, s)
  else
    (false, resp0, { s with connected := false })

/-- Outcomes of the Win32 calls SmbSend makes: pipe creation, the
ConnectNamedPipe result, the PipeWrite result and the last error a failed
write leaves behind. -/
structure SmbSendEnv where
  createPipeOk : Bool
  connectOk : Bool
  writeOk : Bool
  lastError : Nat
  deriving DecidableEq, Repr

/-- SmbSend(Send): with no handle yet, create the named pipe (on failure
return FALSE), wait for the one client (on failure close the pipe and
return FALSE; the handle field keeps its non-NULL value) and return the
first PipeWrite's result.  On an open handle a failed PipeWrite whose last
error is ERROR_NO_DATA closes the handle, NULLs the field, clears
Connected and returns FALSE; any other outcome of the write returns
TRUE. -/
def SmbSend (env : SmbSendEnv) (s : SmbState) : Bool × SmbState :=
  if ¬ s.handle then
    if ¬ env.createPipeOk then
      (false, s)
    else
      let s1 := { s with handle := true }
      if ¬ env.connectOk then
        (false, s1)
      else
        (env.writeOk, s1)
  else
    if ¬ env.writeOk then
      if env.lastError = ERROR_NO_DATA then
        (false, { s with handle := false, connected := false })
      else
        (true, s)
    else
      (true, s)

/-! The HTTP transport, TransportHttp.c: HttpSend. -/

/-- Outcomes of the Win32/WinHttp calls HttpSend makes, in program order:
session creation, connection, the number of configured URIs (the URI pick
is RandomNumber32() % that count), request creation, whether the proxy
auto-discovery block found a proxy to cache, the send/receive results,
whether a failed send left ERROR_INTERNET_CANNOT_CONNECT, the
HttpQueryStatus value and the chunks the response read loop obtains. -/
structure HttpEnv where
  winHttpOpenOk : Bool
  winHttpConnectOk : Bool
  numUris : Nat
  winHttpOpenRequestOk : Bool
  proxyDiscoveryFound : Bool
  sendRequestOk : Bool
  cannotConnectError : Bool
  receiveResponseOk : Bool
  status : Nat
  readChunks : List (List Nat)
  deriving DecidableEq, Repr

/-- The prologue of HttpSend up to the WinHttpSendRequest call: exit the
process when the current host pointer is NULL (embedded as the fault);
lazily create the WinHttp session; connect; pick a URI (a modulo-zero
fault when no URIs are configured); open the request; run the proxy
auto-discovery block when no explicit proxy is configured and
LookedForProxy is clear, setting LookedForProxy and caching any
discovered proxy.  Sum.inl carries the state of an early jump to LEAVE
with Successful still FALSE; Sum.inr carries the state in which the send
is attempted. -/
def httpPrologue (env : HttpEnv) (s : TransportState) :
    Except Unit (TransportState ⊕ TransportState) :=
  match s.current with
  | none => .error ()
  | some _ =>
    let sessOk := s.hHttpSession || env.winHttpOpenOk
    let s1 := { s with hHttpSession := sessOk }
    if ¬ sessOk then .ok (.inl s1)
    else if ¬ env.winHttpConnectOk then .ok (.inl s1)
    else if env.numUris = 0 then .error ()
    else if ¬ env.winHttpOpenRequestOk then .ok (.inl s1)
    else
      let s2 :=
        if s1.proxyEnabled then s1
        else if ¬ s1.lookedForProxy then
          { s1 with
            proxyForUrl := s1.proxyForUrl || env.proxyDiscoveryFound
            lookedForProxy := true }
        else s1
      .ok (.inr s2)

/-- The LEAVE tail of HttpSend: when Successful is still FALSE the current
host is replaced by HostFailure(current host). -/
def httpLeave (rand : Nat) (succ : Bool) (resp : Option (List Nat))
    (s : TransportState) :
    Except Unit (Bool × Option (List Nat) × TransportState) :=
  if succ then .ok (true, resp, s)
  else
    match HostFailure rand s.current s with
    | .error e => .error e
    | .ok (newHost, s1) => .ok (false, resp, { s1 with current := newHost })

/-- HttpSend(Send, Resp), with wantResp standing for a non-NULL Resp
argument.  After the prologue the request is sent; on send failure an
ERROR_INTERNET_CANNOT_CONNECT clears Session.Connected; on a received
response any status other than 200 jumps to LEAVE with Successful FALSE;
with a 200 status Successful is set to TRUE only inside the non-NULL-Resp
branch, after the read loop accumulates the response chunks. -/
def HttpSend (env : HttpEnv) (rand : Nat) (wantResp : Bool)
    (s : TransportState) :
    Except Unit (Bool × Option (List Nat) × TransportState) :=
  match httpPrologue env s with
  | .error e => .error e
  | .ok (.inl sFail) => httpLeave rand false none sFail
  | .ok (.inr sMid) =>
    if env.sendRequestOk then
      if env.receiveResponseOk then
        if env.status ≠ HTTP_STATUS_OK then
          httpLeave rand false none sMid
        else if wantResp then
          httpLeave rand true (some env.readChunks.flatten) sMid
        else
          httpLeave rand false none sMid
      else
        httpLeave rand false none sMid
    else
      let sErr :=
        if env.cannotConnectError then { sMid with connected := false } else sMid
      httpLeave rand false none sErr

/-! Auxiliary definitions: the rotation scan as the specification words it
(for comparison with the code), and concrete states used by witnesses and
counterexamples. -/

/-- Modelled from the spec: the round-robin scan as the specification
describes it — "starting from the record after current, walk forward
skipping dead records; return first live one found, or null if none" —
with the walk wrapping around the pool so that every record is visited.
This definition follows the spec's words, for comparison with the
HostRotation code. -/
def specRoundRobinAfterCurrent (s : TransportState) : Option Nat :=
  match s.current with
  | none => none
  | some c =>
    let n := s.hosts.length
    (List.range n).findSome? (fun k =>
      match s.hosts[(c + 1 + k) % n]? with
      | some h => if h.dead then none else some ((c + 1 + k) % n)
      | none => none)

/-- Builder for a host record. -/
def mkHost (f : Nat) (d : Bool) : HOST_DATA := { host := 0, port := 80, failures := f, dead := d }

/-- Builder for a transport state with the given pool, current host and
retry limit (round-robin configured, NumHosts set to the pool size). -/
def mkState (hs : List HOST_DATA) (cur : Option Nat) (maxR : Nat) : TransportState :=
  { hosts := hs, current := cur, hostMaxRetries := maxR, hostRotation := 0,
    numHosts := hs.length, lookedForProxy := true, connected := true,
    hHttpSession := false, proxyEnabled := false, proxyForUrl := false }

/-- Three live hosts, current host 0: rotation input of the C3 counterexample. -/
def c3state : TransportState :=
  mkState [mkHost 0 false, mkHost 1 false, mkHost 2 false] (some 0) 1

/-- All hosts dead with unlimited retries: input of the C1 witness. -/
def c1state : TransportState :=
  mkState [mkHost 4 true, mkHost 5 true] (some 1) 0

/-- Two live hosts, retry limit 2: start of the C2 three-failure scenario. -/
def c2state0 : TransportState := mkState [mkHost 0 false, mkHost 0 false] (some 0) 2

/-- C2 scenario after the first HostFailure call. -/
def c2state1 : TransportState := mkState [mkHost 1 false, mkHost 0 false] (some 0) 2

/-- C2 scenario after the second HostFailure call. -/
def c2state2 : TransportState := mkState [mkHost 2 false, mkHost 0 false] (some 0) 2

/-- C2 scenario after the third HostFailure call: host 0 dead, rotation
moved to host 1 and cleared the proxy flag. -/
def c2state3 : TransportState :=
  { mkState [mkHost 2 true, mkHost 0 false] (some 0) 2 with lookedForProxy := false }

/-- A dead head and a live second host: input of the C5 witness. -/
def c5state : TransportState := mkState [mkHost 0 true, mkHost 0 false] (some 0) 1

/-- A dead head and a live second host: input of the C8 witness. -/
def c8state : TransportState := mkState [mkHost 0 true, mkHost 0 false] (some 0) 1

/-- SmbSend environment of the C9 witness: established handle, failed write
with last error ERROR_NO_DATA. -/
def c9env : SmbSendEnv :=
  { createPipeOk := true, connectOk := true, writeOk := false, lastError := ERROR_NO_DATA }

/-- Session state of the C9 witness. -/
def c9state : SmbState := { agentId := 7, connected := true, handle := true }

/-- SmbRecv environment of the C4 counterexample: the peek reports exactly
8 available bytes and the identity on the wire does not match. -/
def c4cexEnv : SmbRecvEnv :=
  { peekOk := true, bytesAvail := 8, readIdOk := true, readIdMoreData := false,
    demonId := 99, readLenOk := true, readLenMoreData := false,
    packageSize := 4, pipeReadOk := true, pipeBytes := [1, 2, 3, 4] }

/-- SmbRecv environment of the C4 witness: 5 bytes available. -/
def c4wEnv : SmbRecvEnv :=
  { peekOk := true, bytesAvail := 5, readIdOk := true, readIdMoreData := false,
    demonId := 1, readLenOk := true, readLenMoreData := false,
    packageSize := 0, pipeReadOk := true, pipeBytes := [] }

/-- Session state used by the C4 counterexample and witness. -/
def c4state : SmbState := { agentId := 1, connected := true, handle := true }

/-- HttpSend environment of the C10 witness: every WinHttp call succeeds
and the server answers 200. -/
def c10env : HttpEnv :=
  { winHttpOpenOk := true, winHttpConnectOk := true, numUris := 1,
    winHttpOpenRequestOk := true, proxyDiscoveryFound := false,
    sendRequestOk := true, cannotConnectError := false,
    receiveResponseOk := true, status := 200, readChunks := [] }

/-- Transport state of the C10 witness. -/
def c10state : TransportState := mkState [mkHost 0 false, mkHost 0 false] (some 0) 5

/-- The C10 witness state after the HttpSend prologue: the WinHttp session
handle now exists. -/
def c10mid : TransportState := { c10state with hHttpSession := true }


/-! Helper lemmas about the embedded pool operations. -/

theorem walkCount_eq_length (l : List HOST_DATA) : walkCount l = l.length := by
  induction l with
  | nil => rfl
  | cons a t ih => simp [walkCount, ih, Nat.add_comm]

theorem walkToIndex_add (l : List HOST_DATA) :
    ∀ d k : Nat, k < l.length → walkToIndex l (d + k) d = some (d + k) := by
  induction l with
  | nil => intro d k hk; simp at hk
  | cons a t ih =>
    intro d k hk
    match k with
    | 0 => simp [walkToIndex]
    | k + 1 =>
      have hne : ¬ d = d + (k + 1) := by omega
      have hk2 : k < t.length := by simpa using Nat.lt_of_succ_lt_succ hk
      have ht : t ≠ [] := by
        intro h; rw [h] at hk2; simp at hk2
      match t, ht with
      | b :: t2, _ =>
        have := ih (d + 1) k hk2
        simpa [walkToIndex, hne, Nat.add_assoc, Nat.add_comm, Nat.add_left_comm] using this

theorem walkToIndex_zero (l : List HOST_DATA) (k : Nat) (hk : k < l.length) :
    walkToIndex l k 0 = some k := by
  simpa using walkToIndex_add l 0 k hk

theorem hostRandom_ok (rand : Nat) (s : TransportState) (h : s.hosts ≠ []) :
    HostRandom rand s = .ok (some (rand % s.hosts.length)) := by
  have hlen : s.hosts.length ≠ 0 := by
    intro h0; exact h (List.length_eq_zero.mp h0)
  have hlt : rand % s.hosts.length < s.hosts.length :=
    Nat.mod_lt _ (Nat.pos_of_ne_zero hlen)
  unfold HostRandom
  rw [walkCount_eq_length]
  simp [hlen, walkToIndex_zero s.hosts _ hlt]

theorem firstLive_shift (l : List HOST_DATA) :
    ∀ d : Nat, firstLive l d = (firstLive l 0).map (fun k => k + d) := by
  induction l with
  | nil => intro d; rfl
  | cons a t ih =>
    intro d
    by_cases hd : a.dead
    · simp only [firstLive, if_pos hd]
      rw [ih (d + 1), ih 1]
      cases firstLive t 0 with
      | none => rfl
      | some v => simp; omega
    · simp [firstLive, hd]

theorem firstLive_zero_spec (l : List HOST_DATA) :
    ∀ i : Nat, firstLive l 0 = some i →
      (∃ hi, l[i]? = some hi ∧ hi.dead = false) ∧
      (∀ j hj, j < i → l[j]? = some hj → hj.dead = true) := by
  induction l with
  | nil => intro i hi; simp [firstLive] at hi
  | cons a t ih =>
    intro i hi
    by_cases hd : a.dead
    · simp only [firstLive, if_pos hd] at hi
      rw [firstLive_shift t 1] at hi
      cases hfl : firstLive t 0 with
      | none => rw [hfl] at hi; simp at hi
      | some k =>
        rw [hfl] at hi
        have hik : i = k + 1 := by simpa using hi.symm
        subst hik
        obtain ⟨⟨hkhost, hks, hkd⟩, hbefore⟩ := ih k hfl
        refine ⟨⟨hkhost, by simpa using hks, hkd⟩, ?_⟩
        intro j hj hjlt hjget
        cases j with
        | zero =>
          simp only [List.getElem?_cons_zero, Option.some_inj] at hjget
          rw [← hjget]; exact hd
        | succ j2 =>
          exact hbefore j2 hj (by omega) (by simpa using hjget)
    · simp only [firstLive, if_neg hd] at hi
      have hi0 : i = 0 := by simpa using hi.symm
      subst hi0
      refine ⟨⟨a, by simp, by simpa using hd⟩, ?_⟩
      intro j hj hjlt; omega

theorem firstLive_isSome_of_live (l : List HOST_DATA)
    (h : ∃ x ∈ l, x.dead = false) : ∃ i, firstLive l 0 = some i := by
  induction l with
  | nil => simp at h
  | cons a t ih =>
    by_cases hd : a.dead
    · obtain ⟨x, hx, hxd⟩ := h
      have hxt : x ∈ t := by
        cases hx with
        | head => rw [hxd] at hd; cases hd
        | tail _ hmem => exact hmem
      obtain ⟨i, hi⟩ := ih ⟨x, hxt, hxd⟩
      refine ⟨i + 1, ?_⟩
      simp only [firstLive, if_pos hd]
      rw [firstLive_shift t 1, hi]
      rfl
    · exact ⟨0, by simp [firstLive, hd]⟩

theorem firstLive_eq_none_of_dead (l : List HOST_DATA)
    (h : ∀ x ∈ l, x.dead = true) : ∀ d, firstLive l d = none := by
  induction l with
  | nil => intro d; rfl
  | cons a t ih =>
    intro d
    have hd : a.dead = true := h a (by simp)
    simp only [firstLive, if_pos hd]
    exact ih (fun x hx => h x (List.mem_cons_of_mem a hx)) (d + 1)

theorem rotationEntry_hosts (s : TransportState) : (rotationEntry s).hosts = s.hosts := by
  unfold rotationEntry; split <;> rfl

theorem rotationEntry_current (s : TransportState) : (rotationEntry s).current = s.current := by
  unfold rotationEntry; split <;> rfl

theorem rotationEntry_maxRetries (s : TransportState) :
    (rotationEntry s).hostMaxRetries = s.hostMaxRetries := by
  unfold rotationEntry; split <;> rfl

theorem rotationEntry_numHosts (s : TransportState) :
    (rotationEntry s).numHosts = s.numHosts := by
  unfold rotationEntry; split <;> rfl

theorem rotationEntry_idem (s : TransportState) :
    rotationEntry (rotationEntry s) = rotationEntry s := by
  unfold rotationEntry
  by_cases h : s.numHosts > 1 <;> simp [h]

theorem hostRandom_rotationEntry (rand : Nat) (s : TransportState) :
    HostRandom rand (rotationEntry s) = HostRandom rand s := by
  unfold HostRandom
  rw [rotationEntry_hosts]

theorem headIdx_of_ne_nil (l : List HOST_DATA) (h : l ≠ []) : headIdx l = some 0 := by
  unfold headIdx
  simp [h]

theorem exhaustionReset_some (i : Nat) (s : TransportState) :
    exhaustionReset (some i) s = (some i, s) := by
  simp [exhaustionReset]

theorem exhaustionReset_none_zero (s : TransportState) (hm : s.hostMaxRetries = 0) :
    exhaustionReset none s =
      (headIdx (s.hosts.map resetHost), { s with hosts := s.hosts.map resetHost }) := by
  simp [exhaustionReset, hm]

theorem exhaustionReset_none_pos (s : TransportState) (hm : s.hostMaxRetries ≠ 0) :
    exhaustionReset none s = (none, s) := by
  simp [exhaustionReset, hm]

theorem exhaustionReset_flag (ho : Option Nat) (s : TransportState) :
    (exhaustionReset ho s).2.lookedForProxy = s.lookedForProxy := by
  unfold exhaustionReset; split <;> rfl

theorem exhaustionReset_hosts (ho : Option Nat) (s : TransportState) :
    (exhaustionReset ho s).2.hosts = s.hosts ∨
    (exhaustionReset ho s).2.hosts = s.hosts.map resetHost := by
  unfold exhaustionReset; split
  · right; rfl
  · left; rfl

theorem exhaustionReset_idem (ho : Option Nat) (s : TransportState) (h : s.hosts ≠ []) :
    exhaustionReset (exhaustionReset ho s).1 (exhaustionReset ho s).2 =
      exhaustionReset ho s := by
  unfold exhaustionReset
  split
  · next hc =>
    have hmap : s.hosts.map resetHost ≠ [] := by
      intro h0; exact h (List.map_eq_nil_iff.mp h0)
    simp [headIdx_of_ne_nil _ hmap]
  · next hc => simp [exhaustionReset, hc]

theorem rotationRRBranch_flag (s : TransportState) :
    (rotationRRBranch s).2.lookedForProxy = s.lookedForProxy := by
  cases hc : s.current with
  | none => simp [rotationRRBranch, hc]
  | some c => simp [rotationRRBranch, hc, exhaustionReset_flag]

theorem rotationRRBranch_hosts (s : TransportState) :
    (rotationRRBranch s).2.hosts = s.hosts ∨
    (rotationRRBranch s).2.hosts = s.hosts.map resetHost := by
  cases hc : s.current with
  | none => left; simp [rotationRRBranch, hc]
  | some c =>
    have := exhaustionReset_hosts (firstLive s.hosts 0) s
    simpa [rotationRRBranch, hc] using this

theorem rotationRRBranch_absorb (s : TransportState) (hne : s.hosts ≠ []) :
    exhaustionReset (rotationRRBranch s).1 (rotationRRBranch s).2 = rotationRRBranch s := by
  cases hc : s.current with
  | none =>
    simp [rotationRRBranch, hc, headIdx_of_ne_nil _ hne, exhaustionReset_some]
  | some c =>
    have := exhaustionReset_idem (firstLive s.hosts 0) s hne
    simpa [rotationRRBranch, hc] using this

theorem hostRotation_cases (rand strat : Nat) (s : TransportState)
    (p : Option Nat × TransportState)
    (hp : HostRotation rand strat s = .ok p) :
    p = rotationRRBranch (rotationEntry s) ∨
    p = exhaustionReset (rotationRRBranch (rotationEntry s)).1
          (rotationRRBranch (rotationEntry s)).2 ∨
    (∃ i, p = exhaustionReset (some i) (rotationEntry s)) ∨
    p = exhaustionReset none (rotationEntry s) := by
  unfold HostRotation at hp
  by_cases h1 : strat = TRANSPORT_HTTP_ROTATION_ROUND_ROBIN
  · rw [if_pos h1] at hp
    injection hp with h3
    exact Or.inl h3.symm
  · rw [if_neg h1] at hp
    by_cases h2 : strat = TRANSPORT_HTTP_ROTATION_RANDOM
    · rw [if_pos h2] at hp
      split at hp
      · cases hp
      · cases hp
      · split at hp
        · cases hp
        · split at hp
          · injection hp with h3
            rw [rotationEntry_idem] at h3
            exact Or.inr (Or.inl h3.symm)
          · injection hp with h3
            exact Or.inr (Or.inr (Or.inl ⟨_, h3.symm⟩))
    · rw [if_neg h2] at hp
      injection hp with h3
      exact Or.inr (Or.inr (Or.inr h3.symm))

theorem hostRotation_hosts (rand strat : Nat) (s : TransportState)
    (p : Option Nat × TransportState)
    (hp : HostRotation rand strat s = .ok p) :
    p.2.hosts = s.hosts ∨ p.2.hosts = s.hosts.map resetHost := by
  have hcomp : resetHost ∘ resetHost = resetHost := funext fun x => rfl
  have hmapmap : (s.hosts.map resetHost).map resetHost = s.hosts.map resetHost := by
    rw [List.map_map, hcomp]
  have hbr := rotationRRBranch_hosts (rotationEntry s)
  rw [rotationEntry_hosts] at hbr
  rcases hostRotation_cases rand strat s p hp with h | h | ⟨i, h⟩ | h
  · rw [h]; exact hbr
  · rw [h]
    rcases exhaustionReset_hosts (rotationRRBranch (rotationEntry s)).1
        (rotationRRBranch (rotationEntry s)).2 with h2 | h2 <;> rw [h2]
    · exact hbr
    · rcases hbr with h3 | h3 <;> rw [h3]
      · right; rfl
      · right; exact hmapmap
  · rw [h, exhaustionReset_some]; left; exact rotationEntry_hosts s
  · rw [h]
    rcases exhaustionReset_hosts none (rotationEntry s) with h2 | h2 <;>
      rw [h2, rotationEntry_hosts]
    · left; rfl
    · right; rfl

theorem hostRotation_hosts_get (rand strat : Nat) (s : TransportState)
    (p : Option Nat × TransportState)
    (hp : HostRotation rand strat s = .ok p)
    (j : Nat) (h2 : HOST_DATA) (hg : p.2.hosts[j]? = some h2) :
    ∃ h1, s.hosts[j]? = some h1 ∧ (h2 = h1 ∨ h2 = resetHost h1) := by
  rcases hostRotation_hosts rand strat s p hp with he | he
  · rw [he] at hg; exact ⟨h2, hg, Or.inl rfl⟩
  · rw [he, List.getElem?_map] at hg
    cases hj : s.hosts[j]? with
    | none => rw [hj] at hg; cases hg
    | some h1 =>
      rw [hj, Option.map_some'] at hg
      injection hg with hh
      exact ⟨h1, rfl, Or.inr hh.symm⟩

theorem hostRotation_flag (rand strat : Nat) (s : TransportState)
    (p : Option Nat × TransportState)
    (hp : HostRotation rand strat s = .ok p) :
    p.2.lookedForProxy = (rotationEntry s).lookedForProxy := by
  rcases hostRotation_cases rand strat s p hp with h | h | ⟨i, h⟩ | h <;> rw [h]
  · exact rotationRRBranch_flag (rotationEntry s)
  · rw [exhaustionReset_flag]; exact rotationRRBranch_flag (rotationEntry s)
  · rw [exhaustionReset_some]
  · rw [exhaustionReset_flag]

/-! Claim theorems. -/

/-- C6: on the empty pool HostRandom is claimed to return null with the
modulo guarded; instead the embedded code evaluates
RandomNumber32() % HostCount() with HostCount() = 0 and faults (division
by zero), for any value of the random source. -/
theorem c6_host_random_empty_pool_faults :
    HostRandom 5 (mkState [] none 1) = .error () ∧
    HostRandom 0 (mkState [] none 0) = .error () := by
  exact ⟨rfl, rfl⟩

/-- C7: HostCheckup returns false exactly when every record's dead flag is
set, and on the empty pool its fixed choice is false. -/
theorem c7_checkup_iff (s : TransportState) :
    (HostCheckup s = false ↔ ∀ h ∈ s.hosts, h.dead = true) ∧
    (s.hosts = [] → HostCheckup s = false) := by
  constructor
  · unfold HostCheckup HostCount
    rw [walkCount_eq_length, walkCount_eq_length]
    by_cases hc : s.hosts.length = (s.hosts.filter (fun h => h.dead)).length
    · simp only [if_pos hc]
      constructor
      · intro _
        have := List.filter_length_eq_length.mp hc.symm
        intro h hm
        simpa using this h hm
      · intro _; trivial
    · simp only [if_neg hc]
      constructor
      · intro h; cases h
      · intro hall
        refine absurd ?_ hc
        exact (List.filter_length_eq_length.mpr (by intro a ha; simp [hall a ha])).symm
  · intro he
    unfold HostCheckup HostCount
    simp [he, walkCount]

/-- C7 witness: on the empty pool HostCheckup returns false. -/
theorem c7_checkup_iff_witness :
    HostCheckup (mkState [] none 1) = false :=
  (c7_checkup_iff (mkState [] none 1)).2 rfl

/-- C9: on an established pipe handle, a failed write whose last error is
ERROR_NO_DATA closes the handle, clears Connected and returns FALSE, while
a failed write with any other last error leaves the handle and the
Connected flag untouched. -/
theorem c9_smb_send_write_failure (env : SmbSendEnv) (s : SmbState)
    (hh : s.handle = true) (hw : env.writeOk = false) :
    (env.lastError = ERROR_NO_DATA →
      SmbSend env s = (false, { s with handle := false, connected := false })) ∧
    (env.lastError ≠ ERROR_NO_DATA →
      (SmbSend env s).2.handle = s.handle ∧ (SmbSend env s).2.connected = s.connected) := by
  constructor
  · intro he; simp [SmbSend, hh, hw, he]
  · intro he; simp [SmbSend, hh, hw, he]

/-- C9 witness: concrete failed write with ERROR_NO_DATA. -/
theorem c9_smb_send_write_failure_witness :
    SmbSend c9env c9state = (false, { c9state with handle := false, connected := false }) :=
  (c9_smb_send_write_failure c9env c9state (by decide) (by decide)).1 (by decide)

/-- C4 counterexample: with exactly 8 bytes reported available and a
mismatched identity on the wire, SmbRecv reads nothing, returns success
and leaves the connection flag set — the claim's "at least 8 bytes"
behaviour (read the tag, fail on mismatch, mark the connection lost) does
not happen at 8 bytes, because the code requires strictly more than 8. -/
theorem c4_counterexample :
    SmbRecv c4cexEnv c4state emptyBUFFER = (true, emptyBUFFER, c4state) ∧
    c4cexEnv.bytesAvail = 8 ∧
    c4cexEnv.demonId ≠ c4state.agentId ∧
    c4state.connected = true := by
  refine ⟨rfl, rfl, by decide, rfl⟩

/-- C4 amended: with at most 8 bytes reported available the call returns
success with no message and an untouched state; with strictly more than 8
bytes it reads the 4-byte identity tag (a FALSE ReadFile whose last error
is ERROR_MORE_DATA does not count as a failure), fails the exchange and
clears Connected on a read failure or identity mismatch, then reads the
4-byte length and, on success, hands back a buffer of exactly that length
filled with exactly that many bytes from the pipe; a failed body read also
fails and clears Connected. -/
theorem c4_smb_recv_framing (env : SmbRecvEnv) (s : SmbState) (r0 : BUFFER)
    (hp : env.peekOk = true) :
    (env.bytesAvail ≤ 8 → SmbRecv env s r0 = (true, r0, s)) ∧
    (8 < env.bytesAvail →
      (env.readIdOk = false ∧ env.readIdMoreData = false →
        SmbRecv env s r0 = (false, emptyBUFFER, { s with connected := false })) ∧
      ((env.readIdOk = true ∨ env.readIdMoreData = true) →
        env.demonId ≠ s.agentId →
        SmbRecv env s r0 = (false, emptyBUFFER, { s with connected := false })) ∧
      ((env.readIdOk = true ∨ env.readIdMoreData = true) →
        env.demonId = s.agentId →
        env.readLenOk = false ∧ env.readLenMoreData = false →
        SmbRecv env s r0 = (false, emptyBUFFER, { s with connected := false })) ∧
      ((env.readIdOk = true ∨ env.readIdMoreData = true) →
        env.demonId = s.agentId →
        (env.readLenOk = true ∨ env.readLenMoreData = true) →
        env.pipeReadOk = false →
        SmbRecv env s r0 = (false, emptyBUFFER, { s with connected := false })) ∧
      ((env.readIdOk = true ∨ env.readIdMoreData = true) →
        env.demonId = s.agentId →
        (env.readLenOk = true ∨ env.readLenMoreData = true) →
        env.pipeReadOk = true →
        SmbRecv env s r0 =
          (true, { length := env.packageSize
                   data := some (env.pipeBytes.take env.packageSize) }, s))) := by
  refine ⟨?_, ?_⟩
  · intro hle
    have hno : ¬ (4 + 4 < env.bytesAvail) := by omega
    simp [SmbRecv, hp, hno]
  · intro hgt
    have hyes : 4 + 4 < env.bytesAvail := by omega
    refine ⟨?_, ?_, ?_, ?_, ?_⟩
    · rintro ⟨h1, h2⟩
      simp [SmbRecv, hp, hyes, h1, h2]
    · intro hid hne
      have hne2 : s.agentId ≠ env.demonId := fun e => hne e.symm
      rcases hid with h | h <;> simp [SmbRecv, hp, hyes, h, hne2]
    · intro hid heq hlen
      have heq2 : s.agentId = env.demonId := heq.symm
      rcases hid with h | h <;>
        simp [SmbRecv, hp, hyes, h, heq2, hlen.1, hlen.2]
    · intro hid heq hlen hpr
      have heq2 : s.agentId = env.demonId := heq.symm
      rcases hid with h | h <;> rcases hlen with h2 | h2 <;>
        simp [SmbRecv, hp, hyes, h, h2, heq2, hpr]
    · intro hid heq hlen hpr
      have heq2 : s.agentId = env.demonId := heq.symm
      rcases hid with h | h <;> rcases hlen with h2 | h2 <;>
        simp [SmbRecv, hp, hyes, h, h2, heq2, hpr]

/-- C4 witness: five bytes available is reported as success with no
message and an unchanged state. -/
theorem c4_smb_recv_framing_witness :
    SmbRecv c4wEnv c4state emptyBUFFER = (true, emptyBUFFER, c4state) :=
  (c4_smb_recv_framing c4wEnv c4state emptyBUFFER (by decide)).1 (by decide)

/-- C2: HostFailure on a host whose failure counter equals the retry limit
marks it dead and returns the configured rotation's pick; otherwise it only
increments the counter and returns the same host.  The counter therefore
never exceeds the limit, and with a limit of 2 three consecutive calls on
the same live host mark it dead exactly on the third call. -/
theorem c2_host_failure_step (rand i : Nat) (s : TransportState) (h : HOST_DATA)
    (hi : s.hosts[i]? = some h) :
    (h.failures = s.hostMaxRetries →
      HostFailure rand (some i) s =
        HostRotation rand s.hostRotation
          { s with hosts := s.hosts.set i { h with dead := true } }) ∧
    (h.failures ≠ s.hostMaxRetries →
      HostFailure rand (some i) s =
        .ok (some i,
          { s with hosts := s.hosts.set i { h with failures := h.failures + 1 } })) ∧
    (h.failures ≤ s.hostMaxRetries →
      ∀ p, HostFailure rand (some i) s = .ok p →
        ∀ h2, p.2.hosts[i]? = some h2 → h2.failures ≤ s.hostMaxRetries) ∧
    (HostFailure 0 (some 0) c2state0 = .ok (some 0, c2state1) ∧
     HostFailure 0 (some 0) c2state1 = .ok (some 0, c2state2) ∧
     HostFailure 0 (some 0) c2state2 = .ok (some 1, c2state3) ∧
     c2state1.hosts[0]?.map HOST_DATA.dead = some false ∧
     c2state2.hosts[0]?.map HOST_DATA.dead = some false ∧
     c2state3.hosts[0]?.map HOST_DATA.dead = some true ∧
     c2state1.hosts[0]?.map HOST_DATA.failures = some 1 ∧
     c2state2.hosts[0]?.map HOST_DATA.failures = some 2) := by
  have hlt : i < s.hosts.length := by
    rcases List.getElem?_eq_some_iff.mp hi with ⟨hl, _⟩
    exact hl
  refine ⟨?_, ?_, ?_, by decide⟩
  · intro he
    simp [HostFailure, hi, he]
  · intro he
    simp [HostFailure, hi, he]
  · intro hle p hp h2 hg
    by_cases he : h.failures = s.hostMaxRetries
    · have h1 : HostFailure rand (some i) s =
          HostRotation rand s.hostRotation
            { s with hosts := s.hosts.set i { h with dead := true } } := by
        simp [HostFailure, hi, he]
      rw [h1] at hp
      obtain ⟨h1', hgot, hcase⟩ :=
        hostRotation_hosts_get rand s.hostRotation _ p hp i h2 hg
      have hset : (s.hosts.set i { h with dead := true })[i]? =
          some { h with dead := true } := by
        rw [List.getElem?_set]
        simp [hlt]
      rw [hset] at hgot
      injection hgot with hgot2
      rcases hcase with hcc | hcc
      · rw [hcc, ← hgot2]
        exact he ▸ Nat.le_refl _
      · rw [hcc, ← hgot2]
        exact Nat.zero_le _
    · have h1 : HostFailure rand (some i) s =
          .ok (some i,
            { s with hosts := s.hosts.set i { h with failures := h.failures + 1 } }) := by
        simp [HostFailure, hi, he]
      rw [h1] at hp
      injection hp with h3
      rw [← h3] at hg
      have hset : (s.hosts.set i { h with failures := h.failures + 1 })[i]? =
          some { h with failures := h.failures + 1 } := by
        rw [List.getElem?_set]
        simp [hlt]
      rw [hset] at hg
      injection hg with hg2
      rw [← hg2]
      show h.failures + 1 ≤ s.hostMaxRetries
      omega

/-- C2 witness: the first failure on a live host with limit 2 increments
the counter to 1 and keeps the same host. -/
theorem c2_host_failure_step_witness :
    HostFailure 0 (some 0) c2state0 = .ok (some 0, c2state1) := by
  have h := (c2_host_failure_step 0 0 c2state0 (mkHost 0 false) (by decide)).2.1 (by decide)
  exact h.trans (by decide)

/-- C3 counterexample: a pool of three live hosts with current host 0.
The claim's scan (start at the record after current) would select record 1,
but HostRotation scans from the list head and returns record 0 — the
current host itself. -/
theorem c3_counterexample :
    (HostRotation 0 TRANSPORT_HTTP_ROTATION_ROUND_ROBIN c3state).toOption.map Prod.fst =
      some (some 0) ∧
    c3state.current = some 0 ∧
    (∀ x ∈ c3state.hosts, x.dead = false) ∧
    specRoundRobinAfterCurrent c3state = some 1 := by decide

/-- C3 amended: with a non-null current host and at least one live record,
round-robin rotation returns a live record — the first live one scanning
from the head of the pool list (possibly the current host itself), every
record before it being dead. -/
theorem c3_round_robin_head_scan (rand : Nat) (s : TransportState) (c : Nat)
    (hc : s.current = some c) (hl : ∃ x ∈ s.hosts, x.dead = false) :
    ∃ i s2,
      HostRotation rand TRANSPORT_HTTP_ROTATION_ROUND_ROBIN s = .ok (some i, s2) ∧
      (∃ hi, s.hosts[i]? = some hi ∧ hi.dead = false) ∧
      (∀ j hj, j < i → s.hosts[j]? = some hj → hj.dead = true) := by
  obtain ⟨i, hfl⟩ := firstLive_isSome_of_live s.hosts hl
  obtain ⟨hlive, hbefore⟩ := firstLive_zero_spec s.hosts i hfl
  refine ⟨i, rotationEntry s, ?_, hlive, hbefore⟩
  unfold HostRotation
  rw [if_pos rfl]
  have hcur : (rotationEntry s).current = some c := by rw [rotationEntry_current, hc]
  have hbr : rotationRRBranch (rotationEntry s) = (some i, rotationEntry s) := by
    simp [rotationRRBranch, hcur, rotationEntry_hosts, hfl, exhaustionReset_some]
  rw [hbr]

/-- C3 witness: a dead head followed by a live host, current non-null:
rotation returns the live record at index 1. -/
theorem c3_round_robin_head_scan_witness :
    ∃ i s2,
      HostRotation 0 TRANSPORT_HTTP_ROTATION_ROUND_ROBIN c5state = .ok (some i, s2) ∧
      (∃ hi, c5state.hosts[i]? = some hi ∧ hi.dead = false) ∧
      (∀ j hj, j < i → c5state.hosts[j]? = some hj → hj.dead = true) :=
  c3_round_robin_head_scan 0 c5state 0 (by decide) ⟨mkHost 0 false, by decide, by decide⟩

/-- C5: when the random policy's pick is a dead record, HostRotation under
the random tag returns exactly what HostRotation under the round-robin tag
returns from the same state, via the single inlined fallback. -/
theorem c5_random_dead_fallback (rand : Nat) (s : TransportState) (i : Nat) (h : HOST_DATA)
    (hr : HostRandom rand s = .ok (some i))
    (hi : s.hosts[i]? = some h) (hd : h.dead = true) :
    HostRotation rand TRANSPORT_HTTP_ROTATION_RANDOM s =
      HostRotation rand TRANSPORT_HTTP_ROTATION_ROUND_ROBIN s := by
  have hne : s.hosts ≠ [] := by
    intro h0; rw [h0] at hi; simp at hi
  have h01 : TRANSPORT_HTTP_ROTATION_RANDOM ≠ TRANSPORT_HTTP_ROTATION_ROUND_ROBIN := by decide
  have hrE : HostRandom rand (rotationEntry s) = .ok (some i) := by
    rw [hostRandom_rotationEntry]; exact hr
  have hiE : (rotationEntry s).hosts[i]? = some h := by rw [rotationEntry_hosts]; exact hi
  have hneE : (rotationEntry s).hosts ≠ [] := by rw [rotationEntry_hosts]; exact hne
  have hRHS : HostRotation rand TRANSPORT_HTTP_ROTATION_ROUND_ROBIN s =
      .ok (rotationRRBranch (rotationEntry s)) := by
    unfold HostRotation
    rw [if_pos rfl]
  have hLHS : HostRotation rand TRANSPORT_HTTP_ROTATION_RANDOM s =
      .ok (exhaustionReset
        (rotationRRBranch (rotationEntry (rotationEntry s))).1
        (rotationRRBranch (rotationEntry (rotationEntry s))).2) := by
    unfold HostRotation
    rw [if_neg h01, if_pos rfl]
    simp only [hrE, hiE, hd, if_true]
  rw [hLHS, hRHS, rotationEntry_idem, rotationRRBranch_absorb (rotationEntry s) hneE]

/-- C5 witness: random pick lands on the dead head; the result coincides
with the round-robin result. -/
theorem c5_random_dead_fallback_witness :
    HostRotation 2 TRANSPORT_HTTP_ROTATION_RANDOM c5state =
      HostRotation 2 TRANSPORT_HTTP_ROTATION_ROUND_ROBIN c5state :=
  c5_random_dead_fallback 2 c5state 0 (mkHost 0 true) (by decide) (by decide) (by decide)

/-- C1: with HostMaxRetries = 0 on a non-empty pool, HostRotation under
either policy always selects some host, and when every record is dead and
the current host pointer is non-null it resets every record (Failures = 0,
Dead = FALSE) and returns the head record; since the statement holds for
every such state, the reset repeats indefinitely. -/
theorem c1_unlimited_retry_reset (rand strat : Nat) (s : TransportState)
    (hm : s.hostMaxRetries = 0) (hne : s.hosts ≠ [])
    (hs : strat = TRANSPORT_HTTP_ROTATION_ROUND_ROBIN ∨
          strat = TRANSPORT_HTTP_ROTATION_RANDOM) :
    (∃ i s2, HostRotation rand strat s = .ok (some i, s2)) ∧
    (s.current ≠ none → (∀ x ∈ s.hosts, x.dead = true) →
      HostRotation rand strat s =
        .ok (some 0, { rotationEntry s with hosts := s.hosts.map resetHost })) := by
  have hmE : (rotationEntry s).hostMaxRetries = 0 := by
    rw [rotationEntry_maxRetries]; exact hm
  have hmapne : s.hosts.map resetHost ≠ [] := fun h0 => hne (List.map_eq_nil_iff.mp h0)
  have hRRdead : s.current ≠ none → (∀ x ∈ s.hosts, x.dead = true) →
      rotationRRBranch (rotationEntry s) =
        (some 0, { rotationEntry s with hosts := s.hosts.map resetHost }) := by
    intro hcur hdead
    cases hc : s.current with
    | none => exact absurd hc hcur
    | some c =>
      have hcurE : (rotationEntry s).current = some c := by rw [rotationEntry_current, hc]
      have hflnone : firstLive s.hosts 0 = none := firstLive_eq_none_of_dead s.hosts hdead 0
      have hstep : rotationRRBranch (rotationEntry s) =
          exhaustionReset none (rotationEntry s) := by
        simp [rotationRRBranch, hcurE, rotationEntry_hosts, hflnone]
      rw [hstep, exhaustionReset_none_zero _ hmE, rotationEntry_hosts,
        headIdx_of_ne_nil _ hmapne]
  have hRRsome : ∃ i s2, rotationRRBranch (rotationEntry s) = (some i, s2) := by
    cases hc : s.current with
    | none =>
      have hcurE : (rotationEntry s).current = none := by rw [rotationEntry_current, hc]
      refine ⟨0, rotationEntry s, ?_⟩
      simp [rotationRRBranch, hcurE, rotationEntry_hosts, headIdx_of_ne_nil _ hne]
    | some c =>
      have hcurE : (rotationEntry s).current = some c := by rw [rotationEntry_current, hc]
      cases hfl : firstLive s.hosts 0 with
      | some i =>
        exact ⟨i, rotationEntry s,
          by simp [rotationRRBranch, hcurE, rotationEntry_hosts, hfl, exhaustionReset_some]⟩
      | none =>
        refine ⟨0, { rotationEntry s with hosts := s.hosts.map resetHost }, ?_⟩
        have hstep : rotationRRBranch (rotationEntry s) =
            exhaustionReset none (rotationEntry s) := by
          simp [rotationRRBranch, hcurE, rotationEntry_hosts, hfl]
        rw [hstep, exhaustionReset_none_zero _ hmE, rotationEntry_hosts,
          headIdx_of_ne_nil _ hmapne]
  rcases hs with h1 | h1
  · subst h1
    have hval : HostRotation rand TRANSPORT_HTTP_ROTATION_ROUND_ROBIN s =
        .ok (rotationRRBranch (rotationEntry s)) := by
      unfold HostRotation; rw [if_pos rfl]
    constructor
    · obtain ⟨i, s2, hbr⟩ := hRRsome
      exact ⟨i, s2, by rw [hval, hbr]⟩
    · intro hcur hdead
      rw [hval, hRRdead hcur hdead]
  · subst h1
    have h01 : TRANSPORT_HTTP_ROTATION_RANDOM ≠ TRANSPORT_HTTP_ROTATION_ROUND_ROBIN := by
      decide
    have hlenpos : 0 < s.hosts.length := by
      cases hl : s.hosts with
      | nil => exact absurd hl hne
      | cons a t => simp [hl]
    have hidx : rand % s.hosts.length < s.hosts.length := Nat.mod_lt _ hlenpos
    have hrE : HostRandom rand (rotationEntry s) = .ok (some (rand % s.hosts.length)) := by
      rw [hostRandom_rotationEntry]; exact hostRandom_ok rand s hne
    have hgE : (rotationEntry s).hosts[rand % s.hosts.length]? =
        some (s.hosts[rand % s.hosts.length]) := by
      rw [rotationEntry_hosts]
      exact List.getElem?_eq_getElem hidx
    by_cases hd0 : (s.hosts[rand % s.hosts.length]).dead
    · have hval : HostRotation rand TRANSPORT_HTTP_ROTATION_RANDOM s =
          .ok (exhaustionReset
            (rotationRRBranch (rotationEntry s)).1
            (rotationRRBranch (rotationEntry s)).2) := by
        unfold HostRotation
        rw [if_neg h01, if_pos rfl]
        simp only [hrE, hgE, hd0, if_true, rotationEntry_idem]
      constructor
      · obtain ⟨i, s2, hbr⟩ := hRRsome
        exact ⟨i, s2, by rw [hval, hbr, exhaustionReset_some]⟩
      · intro hcur hdead
        rw [hval, hRRdead hcur hdead, exhaustionReset_some]
    · have hval : HostRotation rand TRANSPORT_HTTP_ROTATION_RANDOM s =
          .ok (exhaustionReset (some (rand % s.hosts.length)) (rotationEntry s)) := by
        unfold HostRotation
        rw [if_neg h01, if_pos rfl]
        simp only [hrE, hgE]
        rw [if_neg hd0]
      constructor
      · exact ⟨rand % s.hosts.length, rotationEntry s,
          by rw [hval, exhaustionReset_some]⟩
      · intro hcur hdead
        exact absurd (hdead _ (List.getElem_mem hidx)) hd0

/-- C1 witness: both hosts dead with unlimited retries; rotation resets the
pool and returns the head. -/
theorem c1_unlimited_retry_reset_witness :
    HostRotation 3 TRANSPORT_HTTP_ROTATION_ROUND_ROBIN c1state =
      .ok (some 0, { rotationEntry c1state with hosts := c1state.hosts.map resetHost }) :=
  (c1_unlimited_retry_reset 3 TRANSPORT_HTTP_ROTATION_ROUND_ROBIN c1state
    (by decide) (by decide) (Or.inl rfl)).2 (by decide) (by decide)

/-- C8: provided the configured NumHosts equals the pool count (NumHosts is
initialized by configuration code outside these sources; the spec defines
it as the host count), every successful rotation on a pool with more than
one host clears LookedForProxy, and on a pool with at most one host leaves
it unchanged. -/
theorem c8_rotation_clears_proxy_flag (rand strat : Nat) (s : TransportState)
    (hinv : s.numHosts = HostCount s)
    (p : Option Nat × TransportState)
    (hp : HostRotation rand strat s = .ok p) :
    (1 < HostCount s → p.2.lookedForProxy = false) ∧
    (HostCount s ≤ 1 → p.2.lookedForProxy = s.lookedForProxy) := by
  have hflag := hostRotation_flag rand strat s p hp
  constructor
  · intro hgt
    rw [hflag]
    unfold rotationEntry
    rw [hinv]
    simp [hgt]
  · intro hle
    rw [hflag]
    unfold rotationEntry
    rw [hinv]
    have hngt : ¬ HostCount s > 1 := by omega
    simp [hngt]

/-- C8 witness: a two-host pool clears the flag on rotation. -/
theorem c8_rotation_clears_proxy_flag_witness :
    ((some 1, { c8state with lookedForProxy := false }) :
        Option Nat × TransportState).2.lookedForProxy = false :=
  (c8_rotation_clears_proxy_flag 0 TRANSPORT_HTTP_ROTATION_ROUND_ROBIN c8state
    (by decide) (some 1, { c8state with lookedForProxy := false }) (by decide)).1
    (by decide)

/-- Helper for C10: the LEAVE tail entered with Successful = FALSE can only
report failure. -/
theorem httpLeave_false_ok (rand : Nat) (resp : Option (List Nat)) (st : TransportState)
    (b : Bool) (r : Option (List Nat)) (s2 : TransportState)
    (hl : httpLeave rand false resp st = .ok (b, r, s2)) : b = false := by
  unfold httpLeave at hl
  split at hl
  · next hcond => exact absurd hcond (by simp)
  · split at hl
    · cases hl
    · injection hl with h3
      exact (congrArg Prod.fst h3).symm

/-- C10: a HttpSend call with a NULL Resp argument never reports success —
the Successful flag is only set inside the non-NULL-Resp branch — and when
the request is transmitted, the response received and the status is 200,
the call still returns FALSE and runs HostFailure on the current host. -/
theorem c10_null_resp_never_succeeds (env : HttpEnv) (rand : Nat) (s : TransportState) :
    (∀ b r s2, HttpSend env rand false s = .ok (b, r, s2) → b = false) ∧
    (∀ sMid, httpPrologue env s = .ok (.inr sMid) →
      env.sendRequestOk = true → env.receiveResponseOk = true →
      env.status = HTTP_STATUS_OK →
      HttpSend env rand false s =
        match HostFailure rand sMid.current sMid with
        | .error e => .error e
        | .ok (nh, s1) => .ok (false, none, { s1 with current := nh })) := by
  constructor
  · intro b r s2 hok
    unfold HttpSend at hok
    split at hok
    · cases hok
    · exact httpLeave_false_ok _ _ _ _ _ _ hok
    · split at hok
      · split at hok
        · split at hok
          · exact httpLeave_false_ok _ _ _ _ _ _ hok
          · split at hok
            · next hcond => exact absurd hcond (by simp)
            · exact httpLeave_false_ok _ _ _ _ _ _ hok
        · exact httpLeave_false_ok _ _ _ _ _ _ hok
      · exact httpLeave_false_ok _ _ _ _ _ _ hok
  · intro sMid hpro h1 h2 h3
    unfold HttpSend
    rw [hpro]
    have hstat : ¬ (env.status ≠ HTTP_STATUS_OK) := by simp [h3]
    simp only [h1, h2, if_true, hstat]
    rcases hq : HostFailure rand sMid.current sMid with e | ⟨nh, s1⟩ <;>
      simp [httpLeave, hq]

/-- C10 witness: concrete send with NULL Resp, all calls succeeding and a
200 status: the call fails and failure accounting increments the current
host's counter. -/
theorem c10_null_resp_never_succeeds_witness :
    HttpSend c10env 0 false c10state =
      .ok (false, none,
        { c10mid with hosts := [mkHost 1 false, mkHost 0 false], current := some 0 }) := by
  have h := (c10_null_resp_never_succeeds c10env 0 c10state).2 c10mid
    (by decide) (by decide) (by decide) (by decide)
  exact h.trans (by decide)

end Havoc
